import Mathlib

/-!
Verification of the SlicerMRClass module (`SlicerMRClass.py`) against its
natural-language specification.

The module is GUI glue around a host DICOM database (`slicer.dicomDatabase`)
and a host CLI runner (`slicer.cli.run`).  We embed the module's own
computations shallowly: external reads (database tag lookups, Python
`float()` parses of tag strings) are supplied as inputs, Python exceptions
become an explicit error type, and Python list/dict loops become structural
recursion on lists.
-/

/-- The Python exceptions the embedded code can raise:
`valueError` for a failed numeric parse (`float(...)` / `np.int16(...)`),
`indexError` for a list index out of range (`fileList[i]`, `seriesList[0]`). -/
inductive PyError where
  | valueError
  | indexError
deriving DecidableEq, Repr

/-- Insert `a` into a list, keeping elements on which `le` holds first in front.
Helper for `insertionSortBy`. -/
def insertSorted {α : Type} (le : α → α → Bool) (a : α) : List α → List α
  | [] => [a]
  | b :: rest => if le a b then a :: b :: rest else b :: insertSorted le a rest

/-- Insertion sort with an explicit Boolean comparison. -/
def insertionSortBy {α : Type} (le : α → α → Bool) : List α → List α
  | [] => []
  | a :: rest => insertSorted le a (insertionSortBy le rest)

/-- Embedding of `np.argsort xs`: the list of indices `0, …, xs.length - 1` reordered so that
the values of `xs` read along it are ascending.  (numpy's default quicksort
leaves the relative order of equal keys unspecified; none of the verified
claims depends on the order of tied keys, and every concrete input used below
has pairwise distinct keys.) -/
def argsortBy {α : Type} [Inhabited α] (le : α → α → Bool) (xs : List α) : List Nat :=
  insertionSortBy (fun i j => le (xs.getD i default) (xs.getD j default)) (List.range xs.length)

/-!
## Middle-slice locator (`SlicerMRClassWidget.onButtonLoadSeries`, per series)

For one series the Python body is:

    fileList = db.filesForSeries(series)
    IPP = [db.fileValue(fileList[n], "0020,0032") for n in range(0, num_files)]
    IPP = [float(f) for f in IPP]
    IPP_index = np.argsort(IPP)
    midIPP_index = np.int32(np.floor(len(IPP_index)/2))
    midSOPInstanceUID = db.fileValue(fileList[midIPP_index], "0008,0018")
    self.seriesMap[series]['midSOPInstanceUID'] = midSOPInstanceUID

We embed a series file as the pair of external reads the body performs on it.
-/

/-- One DICOM file of a series, as seen through the external database:
`ipp` is the result of Python `float(db.fileValue(f, "0020,0032"))` — `none`
when that parse raises `ValueError` (floats are modelled exactly, by `ℚ`;
only their ordering is used) — and `sop` is `db.fileValue(f, "0008,0018")`,
the file's SOPInstanceUID. -/
structure SeriesFile where
  ipp : Option ℚ
  sop : String
deriving DecidableEq, Repr

/-- Embedding of `[float(f) for f in IPP]`: the Python list comprehension materialises the
parses left to right and raises `ValueError` at the first failure. -/
def parseAllFloats {α : Type} : List (Option α) → Except PyError (List α)
  | [] => Except.ok []
  | none :: _ => Except.error PyError.valueError
  | some x :: rest =>
    match parseAllFloats rest with
    | Except.error e => Except.error e
    | Except.ok xs => Except.ok (x :: xs)

/-- The per-series body of `onButtonLoadSeries`: the `midSOPInstanceUID` the
code records for the series, given its file list.  Note the source indexes
`fileList[midIPP_index]` with the raw `floor(N/2)` — the argsort result
`IPP_index` is computed but never used as an index. -/
def onButtonLoadSeriesMidSOP (fileList : List SeriesFile) : Except PyError String :=
  match parseAllFloats (fileList.map SeriesFile.ipp) with
  | Except.error e => Except.error e
  | Except.ok IPP =>
    let IPP_index := argsortBy (fun a b => decide (a ≤ b)) IPP
    let midIPP_index := IPP_index.length / 2
    match fileList.get? midIPP_index with
    | none => Except.error PyError.indexError
    | some f => Except.ok f.sop

/-- The spec's contract for the locator, stated as a second definition for
comparison (spec §4.2: "sort the set by a single numeric key, and designate
the file at the floor of (count / 2) as the representative"): sort the files
by the parsed position key and take the SOPInstanceUID of the file at sorted
position `floor(N/2)`. -/
def middleSliceSOPSpec (fileList : List SeriesFile) : Except PyError String :=
  match parseAllFloats (fileList.map SeriesFile.ipp) with
  | Except.error e => Except.error e
  | Except.ok IPP =>
    let sortedFiles :=
      (argsortBy (fun a b => decide (a ≤ b)) IPP).map (fun i => fileList.get? i)
    match sortedFiles.get? (IPP.length / 2) with
    | some (some f) => Except.ok f.sop
    | _ => Except.error PyError.indexError

/-!
## The DICOM database browser
(`listStudies`, `listSeries` of `SlicerMRClassWidget`)

The host database object `slicer.dicomDatabase` is an external collaborator;
we model its query surface as a record of functions and translate the
widget's loops over it.
-/

/-- The query surface of `slicer.dicomDatabase` used by the module: the
patient list, the children lists of a patient / study / series, and
`fileValue f tag` reading a DICOM tag value from a file. -/
structure DicomDB where
  patients : List String
  studiesForPatient : String → List String
  seriesForStudy : String → List String
  filesForSeries : String → List String
  fileValue : String → String → String

/-- One entry of `self.studyMap` as built by `listStudies`. -/
structure StudyRecord where
  slicerStudyID : String
  studyInstanceUID : String
  studyDate : String
  studyDescription : String
  studyShortName : String
deriving DecidableEq, Repr

/-- The body of the `for study in studyList` loop of `listStudies`:
`seriesList[0]` and `fileList[0]` raise `IndexError` when the study has no
series or the series has no files; otherwise the tag reads build the record,
with `StudyShortName = StudyDate + '_' + StudyDescription`. -/
def studyRecordOf (db : DicomDB) (study : String) : Except PyError StudyRecord :=
  match (db.seriesForStudy study).head? with
  | none => Except.error PyError.indexError
  | some series0 =>
    match (db.filesForSeries series0).head? with
    | none => Except.error PyError.indexError
    | some file0 =>
      let StudyDate := db.fileValue file0 "0008,0020"
      let StudyDescription := db.fileValue file0 "0008,1030"
      Except.ok { slicerStudyID := study
                  studyInstanceUID := study
                  studyDate := StudyDate
                  studyDescription := StudyDescription
                  studyShortName := StudyDate ++ "_" ++ StudyDescription }

/-- The `for study in studyList` loop of `listStudies`, building `studyMap`
in insertion order (Python dicts preserve insertion order; the host returns
distinct study UIDs, so keyed insertion is list append).  The first failing
study aborts the whole loop, as the uncaught Python exception does. -/
def buildStudyMap (db : DicomDB) : List String → Except PyError (List (String × StudyRecord))
  | [] => Except.ok []
  | study :: rest =>
    match studyRecordOf db study with
    | Except.error e => Except.error e
    | Except.ok r =>
      match buildStudyMap db rest with
      | Except.error e => Except.error e
      | Except.ok m => Except.ok ((study, r) :: m)

/-- Embedding of `SlicerMRClassWidget.listStudies`: query the studies of the
selected patient and build `self.studyMap`. -/
def listStudies (db : DicomDB) (slicerPatientIDSelected : String) :
    Except PyError (List (String × StudyRecord)) :=
  buildStudyMap db (db.studiesForPatient slicerPatientIDSelected)

/-- One entry of `self.seriesMap` as built by `listSeries`. -/
structure SeriesRecord where
  slicerSeriesID : String
  seriesInstanceUID : String
  seriesNumber : String
  seriesDescription : String
  modality : String
deriving DecidableEq, Repr

/-- The body of the `for series in seriesList` loop of `listSeries`:
`fileList[0]` raises `IndexError` when the series has no files; otherwise the
tag reads (0008,103E; 0020,0011; 0008,0060) build the record. -/
def seriesRecordOf (db : DicomDB) (series : String) : Except PyError SeriesRecord :=
  match (db.filesForSeries series).head? with
  | none => Except.error PyError.indexError
  | some file0 =>
    Except.ok { slicerSeriesID := series
                seriesInstanceUID := series
                seriesNumber := db.fileValue file0 "0020,0011"
                seriesDescription := db.fileValue file0 "0008,103E"
                modality := db.fileValue file0 "0008,0060" }

/-- The `for series in seriesList` loop of `listSeries`, building `seriesMap`
in insertion order. -/
def buildSeriesMap (db : DicomDB) : List String → Except PyError (List (String × SeriesRecord))
  | [] => Except.ok []
  | series :: rest =>
    match seriesRecordOf db series with
    | Except.error e => Except.error e
    | Except.ok r =>
      match buildSeriesMap db rest with
      | Except.error e => Except.error e
      | Except.ok m => Except.ok ((series, r) :: m)

/-- Embedding of `SlicerMRClassWidget.listSeries`: query the series of the
selected study and build `self.seriesMap`. -/
def listSeries (db : DicomDB) (slicerStudyIDSelected : String) :
    Except PyError (List (String × SeriesRecord)) :=
  buildSeriesMap db (db.seriesForStudy slicerStudyIDSelected)

/-!
## Series table rendering (`SlicerMRClassWidget.addSeriesToList`)

The widget pulls `SeriesNumber` / `SeriesDescription` / `Modality` columns
out of `self.seriesMap`, sorts them by `np.int16(SeriesNumber)` via
`np.argsort`, then renders the sorted rows, graying row `n` when
`self.showSeriesIndex[n] == 0` — where `showSeriesIndex` was computed from
the UNSORTED modality list.
-/

/-- Decimal digit string to a number, `none` when a non-digit appears. -/
def digitsVal (cs : List Char) : Option Nat :=
  cs.foldl (fun acc c =>
    match acc with
    | none => none
    | some n => if c.isDigit then some (n * 10 + (c.toNat - 48)) else none) (some 0)

/-- Embedding of Python `int(s)` on the plain decimal forms a DICOM
SeriesNumber tag takes: an optional minus sign followed by at least one
digit.  Anything else raises `ValueError` (leading whitespace, a plus sign or
a float literal are not modelled; no claim exercises them). -/
def pyInt (s : String) : Option Int :=
  match s.data with
  | [] => none
  | '-' :: [] => none
  | '-' :: rest => (digitsVal rest).map (fun n => -(n : Int))
  | cs => (digitsVal cs).map (fun n => (n : Int))

/-- Embedding of `np.int16` applied to an integer: wrap modulo `2 ^ 16` into
`[-32768, 32768)`. -/
def toInt16 (n : Int) : Int := (n + 32768) % 65536 - 32768

/-- Embedding of `[np.int16(f) for f in SeriesNumberList]`: left-to-right,
raising `ValueError` at the first string that is not an integer literal. -/
def parseAllInt16 : List String → Except PyError (List Int)
  | [] => Except.ok []
  | s :: rest =>
    match pyInt s with
    | none => Except.error PyError.valueError
    | some n =>
      match parseAllInt16 rest with
      | Except.error e => Except.error e
      | Except.ok ns => Except.ok (toInt16 n :: ns)

/-- One rendered row of the series table (`QStandardItem` triple plus whether
the row's items were set to the gray foreground). -/
structure SeriesItem where
  modality : String
  seriesNumber : String
  seriesDescription : String
  grayed : Bool
deriving DecidableEq, Repr

/-- Embedding of `SlicerMRClassWidget.addSeriesToList`, from the values of
`self.seriesMap` (insertion order) to the rendered table rows.  Every list
index taken below is in range (all the lists share the length of the input),
so the `getD` defaults are never reached. -/
def addSeriesToList (seriesMapValues : List SeriesRecord) : Except PyError (List SeriesItem) :=
  let SeriesNumberList := seriesMapValues.map SeriesRecord.seriesNumber
  let SeriesDescriptionList := seriesMapValues.map SeriesRecord.seriesDescription
  let ModalityList := seriesMapValues.map SeriesRecord.modality
  match parseAllInt16 SeriesNumberList with
  | Except.error e => Except.error e
  | Except.ok nums =>
    let order_index := argsortBy (fun a b => decide (a ≤ b)) nums
    let SeriesNumberListSorted := order_index.map (fun i => toString (nums.getD i 0))
    let SeriesDescriptionListSorted := order_index.map (fun i => SeriesDescriptionList.getD i "")
    let ModalityListSorted := order_index.map (fun i => ModalityList.getD i "")
    let showSeriesIndex := ModalityList.map (fun m => if m = "MR" then (1 : Nat) else 0)
    Except.ok ((List.range SeriesDescriptionListSorted.length).map (fun n =>
      { modality := ModalityListSorted.getD n ""
        seriesNumber := SeriesNumberListSorted.getD n ""
        seriesDescription := SeriesDescriptionListSorted.getD n ""
        grayed := showSeriesIndex.getD n 1 == 0 }))

/-- The series-table part of `onStudySelected`: `listSeries` rebuilds
`self.seriesMap`, then `addSeriesToList` renders its values. -/
def seriesTableFor (db : DicomDB) (slicerStudyIDSelected : String) :
    Except PyError (List SeriesItem) :=
  match listSeries db slicerStudyIDSelected with
  | Except.error e => Except.error e
  | Except.ok seriesMap => addSeriesToList (seriesMap.map Prod.snd)

/-!
## Study-list replacement (`updateStudiesToList`, `addStudies`,
`clearStudyIDListGroupBox`)
-/

/-- Embedding of `clearStudyIDListGroupBox`: `self.studyIDListGroupBox.clear()`
removes every item from the study combo box. -/
def clearStudyIDListGroupBox (box : List String) : List String :=
  (fun _ => []) box

/-- Embedding of `addStudies`: first clear the study combo box, then
`addItems(studies)`. -/
def addStudies (box : List String) (studies : List String) : List String :=
  clearStudyIDListGroupBox box ++ studies

/-- Embedding of `updateStudiesToList` as far as the study combo box items are
concerned: rebuild `self.studyMap` via `listStudies`, then hand the
StudyShortNames to `addStudies`.  (The method also deletes leftover child
widgets of the group box layout; that does not touch the combo box items.) -/
def updateStudiesToList (box : List String) (db : DicomDB) (slicerPatientIDSelected : String) :
    Except PyError (List String) :=
  match listStudies db slicerPatientIDSelected with
  | Except.error e => Except.error e
  | Except.ok studyMap =>
    Except.ok (addStudies box (studyMap.map (fun p => p.2.studyShortName)))

/-!
## Signal connections made by `onPatientSelected`

`setup` never connects the study combo box (the connection there is commented
out); `onPatientSelected` ends with

    self.studyIDListGroupBox.connect("currentIndexChanged(int)", self.onStudySelected)

and no code path ever disconnects it.  Qt adds a NEW connection on every such
call, and emitting the signal invokes the slot once per connection.  We model
the connection multiset by its size.
-/

/-- The number of connections from the study combo box's
`currentIndexChanged(int)` signal to `self.onStudySelected`. -/
structure WidgetConnState where
  studyConnections : Nat
deriving DecidableEq, Repr

/-- State after `setup`: the study combo box is not yet connected. -/
def setupConnState : WidgetConnState := { studyConnections := 0 }

/-- The connection effect of one `onPatientSelected` call: one more
connection from `currentIndexChanged(int)` to `onStudySelected`; nothing is
ever disconnected. -/
def onPatientSelectedConnect (s : WidgetConnState) : WidgetConnState :=
  { studyConnections := s.studyConnections + 1 }

/-- How many times one emission of `currentIndexChanged(int)` on the study
combo box invokes `onStudySelected` (each invocation re-runs
`addSeriesToList`): once per registered connection. -/
def studyIndexChangedInvocations (s : WidgetConnState) : Nat :=
  s.studyConnections

/-!
## The processing call-through (`SlicerMRClassLogic.process`)

The external effects are `slicer.cli.run` (creates a transient CLI node in
the MRML scene, runs synchronously, returns the node) and
`slicer.mrmlScene.RemoveNode`.  We model the scene as the list of its node
ids — `freshCliNodeId` is the id of the node `slicer.cli.run` would create —
and record the parameter dictionaries of the CLI invocations made.
-/

/-- A `vtkMRMLScalarVolumeNode` handle, reduced to what `process` reads from
it: `GetID()`. -/
structure VolumeNode where
  id : String
deriving DecidableEq, Repr

/-- The `cliParams` dictionary passed to `slicer.cli.run`, together with the
`update_display` flag of the call. -/
structure CliParams where
  inputVolume : String
  outputVolume : String
  thresholdValue : ℚ
  thresholdType : String
  updateDisplay : Bool
deriving DecidableEq, Repr

/-- The result of a completed `process` call: the CLI invocations performed
(in order) and the MRML scene contents afterwards. -/
structure ProcessResult where
  invocations : List CliParams
  scene : List String
deriving DecidableEq, Repr

/-- The `cliParams` dictionary `process` builds:
`"ThresholdType": "Above" if invert else "Below"`, threshold passed through. -/
def cliParamsOf (inputVolume outputVolume : VolumeNode) (imageThreshold : ℚ)
    (invert showResult : Bool) : CliParams :=
  { inputVolume := inputVolume.id
    outputVolume := outputVolume.id
    thresholdValue := imageThreshold
    thresholdType := if invert then "Above" else "Below"
    updateDisplay := showResult }

/-- Embedding of `SlicerMRClassLogic.process`.  `if not inputVolume or not
outputVolume: raise ValueError("Input or output volume is invalid")` comes
first; only then is `slicer.cli.run` invoked (adding the transient CLI node
to the scene) and the node removed again with
`slicer.mrmlScene.RemoveNode(cliNode)`. -/
def process (scene : List String) (freshCliNodeId : String)
    (inputVolume outputVolume : Option VolumeNode)
    (imageThreshold : ℚ) (invert : Bool) (showResult : Bool) :
    Except String ProcessResult :=
  match inputVolume, outputVolume with
  | some iv, some ov =>
    let cliParams := cliParamsOf iv ov imageThreshold invert showResult
    let sceneAfterRun := scene ++ [freshCliNodeId]
    let sceneAfterRemove := sceneAfterRun.erase freshCliNodeId
    Except.ok { invocations := [cliParams], scene := sceneAfterRemove }
  | _, _ => Except.error "Input or output volume is invalid"

/-!
## Concrete databases used by witnesses
-/

/-- A database whose query surface returns no children at any level. -/
def emptyDb : DicomDB :=
  { patients := []
    studiesForPatient := fun _ => []
    seriesForStudy := fun _ => []
    filesForSeries := fun _ => []
    fileValue := fun _ _ => "" }

/-- A database with one patient "PA" holding one study "ST1" with one series
"SE1" of one file "f1" dated 20240101 and described "BRAIN". -/
def oneStudyDb : DicomDB :=
  { patients := ["PA"]
    studiesForPatient := fun p => if p = "PA" then ["ST1"] else []
    seriesForStudy := fun s => if s = "ST1" then ["SE1"] else []
    filesForSeries := fun s => if s = "SE1" then ["f1"] else []
    fileValue := fun f tag =>
      if f = "f1" then
        if tag = "0008,0020" then "20240101"
        else if tag = "0008,1030" then "BRAIN"
        else ""
      else "" }

/-!
## Theorems

One theorem per claim of the specification, with witnesses for the theorems
that carry hypotheses.
-/

/-- C1: the spec says the locator designates the file at SORTED index
`floor(N/2)` and records its SOPInstanceUID.  On a two-file series with
position keys 5.0 (SOP "A") and 1.0 (SOP "B") the code records "B" — the
file at index `floor(2/2) = 1` of the ORIGINAL file order — while the sorted
order puts "A" at sorted index 1: `IPP_index = np.argsort(IPP)` is computed
but never used to index `fileList`, contradicting the code's own comment
"sort files and get IPP and SOPInstanceUID of middle slice". -/
theorem onButtonLoadSeries_ignores_sort_order :
    onButtonLoadSeriesMidSOP [{ ipp := some 5, sop := "A" }, { ipp := some 1, sop := "B" }] =
        Except.ok "B" ∧
      middleSliceSOPSpec [{ ipp := some 5, sop := "A" }, { ipp := some 1, sop := "B" }] =
        Except.ok "A" :=
  ⟨rfl, rfl⟩

/-- C2: on the spec's own scenario — SeriesNumbers ["3","1","2"] with
Modalities ["MR","CT","MR"] (so the CT series is the one numbered "1") — the
rows are rendered in SeriesNumber order ["1","2","3"], but the gray flags
`showSeriesIndex`, computed from the UNSORTED modality list, are applied to
the sorted rows: the MR row numbered "2" is grayed and the CT row is rendered
normally, contradicting the code's comment "Set certain ones to gray if
Modality is not 'MR'". -/
theorem addSeriesToList_grays_wrong_row :
    addSeriesToList
        [{ slicerSeriesID := "s3", seriesInstanceUID := "s3", seriesNumber := "3",
           seriesDescription := "d3", modality := "MR" },
         { slicerSeriesID := "s1", seriesInstanceUID := "s1", seriesNumber := "1",
           seriesDescription := "d1", modality := "CT" },
         { slicerSeriesID := "s2", seriesInstanceUID := "s2", seriesNumber := "2",
           seriesDescription := "d2", modality := "MR" }] =
      Except.ok
        [{ modality := "CT", seriesNumber := "1", seriesDescription := "d1", grayed := false },
         { modality := "MR", seriesNumber := "2", seriesDescription := "d2", grayed := true },
         { modality := "MR", seriesNumber := "3", seriesDescription := "d3", grayed := false }] :=
  rfl

/-- C3: `process` raises `ValueError("Input or output volume is invalid")`
whenever the input or the output volume handle is unset, before
`slicer.cli.run` is reached — the error result carries no CLI invocation and
leaves the scene untouched. -/
theorem process_rejects_unset_volumes (scene : List String) (freshCliNodeId : String)
    (inputVolume outputVolume : Option VolumeNode) (imageThreshold : ℚ)
    (invert showResult : Bool) (h : inputVolume = none ∨ outputVolume = none) :
    process scene freshCliNodeId inputVolume outputVolume imageThreshold invert showResult =
      Except.error "Input or output volume is invalid" := by
  rcases h with h | h
  · subst h; cases outputVolume <;> rfl
  · subst h; cases inputVolume <;> rfl

/-- C3 witness: a concrete call with the input volume unset. -/
theorem process_rejects_unset_volumes_witness :
    process [] "cliNode1" none (some { id := "vol2" }) 100 false true =
      Except.error "Input or output volume is invalid" :=
  process_rejects_unset_volumes [] "cliNode1" none (some { id := "vol2" }) 100 false true
    (Or.inl rfl)

/-- C4: a patient with zero studies gives an empty (fully cleared) study
combo box, and a study with zero series gives an empty series table; neither
listing raises an error. -/
theorem cascade_empty_parent_empty_list (db : DicomDB) (box : List String) (p s : String)
    (hp : db.studiesForPatient p = []) (hs : db.seriesForStudy s = []) :
    updateStudiesToList box db p = Except.ok [] ∧ seriesTableFor db s = Except.ok [] := by
  constructor
  · unfold updateStudiesToList listStudies
    rw [hp]
    rfl
  · unfold seriesTableFor listSeries
    rw [hs]
    rfl

/-- C4 witness: a database whose query surface returns no studies and no
series. -/
theorem cascade_empty_parent_empty_list_witness :
    updateStudiesToList ["stale"] emptyDb "P0" = Except.ok [] ∧
      seriesTableFor emptyDb "S0" = Except.ok [] :=
  cascade_empty_parent_empty_list emptyDb ["stale"] "P0" "S0" rfl rfl

/-- Helper for C5: the Python list comprehension `[float(f) for f in IPP]`
raises `ValueError` as soon as the list contains a value that fails to
parse. -/
theorem parseAllFloats_of_none_mem {α : Type} (l : List (Option α)) (h : none ∈ l) :
    parseAllFloats l = Except.error PyError.valueError := by
  induction l with
  | nil => cases h
  | cons a t ih =>
    cases a with
    | none => rfl
    | some x =>
      have ht : (none : Option α) ∈ t := by
        rcases List.mem_cons.mp h with h1 | h1
        · exact absurd h1 (by simp)
        · exact h1
      unfold parseAllFloats
      rw [ih ht]

/-- C5: if any file of the series has a position tag value on which the
`float(...)` parse fails, the middle-slice locator raises that `ValueError`
for the series — no value is coerced, no file is skipped, and no
SOPInstanceUID is recorded. -/
theorem onButtonLoadSeries_parse_failure_fatal (fileList : List SeriesFile)
    (f : SeriesFile) (hmem : f ∈ fileList) (hparse : f.ipp = none) :
    onButtonLoadSeriesMidSOP fileList = Except.error PyError.valueError := by
  have h : (none : Option ℚ) ∈ fileList.map SeriesFile.ipp := by
    rw [← hparse]
    exact List.mem_map_of_mem SeriesFile.ipp hmem
  unfold onButtonLoadSeriesMidSOP
  rw [parseAllFloats_of_none_mem _ h]

/-- C5 witness: a two-file series whose second file has an unparsable
position tag. -/
theorem onButtonLoadSeries_parse_failure_fatal_witness :
    ({ ipp := none, sop := "B" } : SeriesFile) ∈
        [({ ipp := some 1, sop := "A" } : SeriesFile), { ipp := none, sop := "B" }] ∧
      onButtonLoadSeriesMidSOP [{ ipp := some 1, sop := "A" }, { ipp := none, sop := "B" }] =
        Except.error PyError.valueError :=
  ⟨by simp,
   onButtonLoadSeries_parse_failure_fatal
     [{ ipp := some 1, sop := "A" }, { ipp := none, sop := "B" }]
     { ipp := none, sop := "B" } (by simp) rfl⟩

/-- C6 counterexample: the claim says a series with zero position-tagged
files fails with a deliberate, distinguishable error rather than by indexing
out of range; in fact `fileList[midIPP_index]` is evaluated with
`midIPP_index = 0` on the empty file list and the locator dies of exactly an
`IndexError`. -/
theorem onButtonLoadSeries_empty_counterexample :
    onButtonLoadSeriesMidSOP [] = Except.error PyError.indexError :=
  rfl

/-- C6 (amended): for a series with N = 0 position-tagged files the
middle-slice locator fails by indexing out of range (an uncaught
`IndexError` from `fileList[0]`), not by a deliberate explicit error. -/
theorem onButtonLoadSeries_empty_index_error (fileList : List SeriesFile)
    (h : fileList.length = 0) :
    onButtonLoadSeriesMidSOP fileList = Except.error PyError.indexError := by
  have h2 : fileList = [] := List.length_eq_zero.mp h
  subst h2
  rfl

/-- C6 witness: the empty file list. -/
theorem onButtonLoadSeries_empty_index_error_witness :
    ([] : List SeriesFile).length = 0 ∧
      onButtonLoadSeriesMidSOP [] = Except.error PyError.indexError :=
  ⟨rfl, onButtonLoadSeries_empty_index_error [] rfl⟩

/-- C7: a successful `process` call removes the transient CLI node that
`slicer.cli.run` created, leaving the scene exactly as it was — repeated
calls therefore leave no residual CLI nodes accumulating. -/
theorem process_discards_cli_node (scene : List String) (freshCliNodeId : String)
    (iv ov : VolumeNode) (imageThreshold : ℚ) (invert showResult : Bool)
    (h : freshCliNodeId ∉ scene) :
    process scene freshCliNodeId (some iv) (some ov) imageThreshold invert showResult =
      Except.ok { invocations := [cliParamsOf iv ov imageThreshold invert showResult]
                  scene := scene } := by
  have h2 : (scene ++ [freshCliNodeId]).erase freshCliNodeId = scene := by
    rw [List.erase_append_right _ h]
    simp
  simp [process, h2]

/-- C7 witness: a scene with one unrelated node. -/
theorem process_discards_cli_node_witness :
    process ["existingNode"] "cliNode1" (some { id := "vol1" }) (some { id := "vol2" })
        100 false true =
      Except.ok
        { invocations := [cliParamsOf { id := "vol1" } { id := "vol2" } 100 false true]
          scene := ["existingNode"] } :=
  process_discards_cli_node ["existingNode"] "cliNode1" { id := "vol1" } { id := "vol2" }
    100 false true (by decide)

/-- Helper for C8: every entry of a successfully built `studyMap` comes from
the queried study list, with the record the loop body computes for it. -/
theorem buildStudyMap_mem_ok (db : DicomDB) (l : List String)
    (m : List (String × StudyRecord)) (h : buildStudyMap db l = Except.ok m) :
    ∀ pr ∈ m, pr.1 ∈ l ∧ studyRecordOf db pr.1 = Except.ok pr.2 := by
  induction l generalizing m with
  | nil =>
    intro pr hpr
    unfold buildStudyMap at h
    injection h with h2
    subst h2
    cases hpr
  | cons a t ih =>
    intro pr hpr
    unfold buildStudyMap at h
    cases hr : studyRecordOf db a with
    | error e => rw [hr] at h; cases h
    | ok r =>
      rw [hr] at h
      cases hm : buildStudyMap db t with
      | error e => rw [hm] at h; cases h
      | ok m2 =>
        rw [hm] at h
        injection h with h2
        subst h2
        rcases List.mem_cons.mp hpr with h3 | h3
        · subst h3
          exact ⟨List.mem_cons_self a t, hr⟩
        · rcases ih m2 hm pr h3 with ⟨h4, h5⟩
          exact ⟨List.mem_cons_of_mem a h4, h5⟩

/-- C8: re-selecting a patient fully replaces the study combo box — the
resulting item list is independent of whatever the box held before (it is
cleared before repopulation), and every listed entry is the StudyShortName of
a study of the newly selected patient, so no stale entry survives. -/
theorem updateStudiesToList_replaces_study_list (box box2 : List String) (db : DicomDB)
    (p : String) (out : List String)
    (h : updateStudiesToList box db p = Except.ok out) :
    updateStudiesToList box2 db p = Except.ok out ∧
      ∀ s ∈ out, ∃ study ∈ db.studiesForPatient p, ∃ r : StudyRecord,
        studyRecordOf db study = Except.ok r ∧ s = r.studyShortName := by
  unfold updateStudiesToList at h ⊢
  cases hm : listStudies db p with
  | error e => rw [hm] at h; cases h
  | ok m =>
    rw [hm] at h
    injection h with h2
    constructor
    · rw [← h2]
      rfl
    · intro s hs
      rw [← h2] at hs
      have hs2 : s ∈ m.map (fun pr => pr.2.studyShortName) := hs
      rcases List.mem_map.mp hs2 with ⟨pr, hpr, hsn⟩
      have hmem := buildStudyMap_mem_ok db (db.studiesForPatient p) m hm pr hpr
      exact ⟨pr.1, hmem.1, pr.2, hmem.2, hsn.symm⟩

/-- C8 witness: a box holding a stale entry, replaced by the single study of
patient "PA" of `oneStudyDb`. -/
theorem updateStudiesToList_replaces_study_list_witness :
    updateStudiesToList [] oneStudyDb "PA" = Except.ok ["20240101_BRAIN"] ∧
      ∀ s ∈ ["20240101_BRAIN"], ∃ study ∈ oneStudyDb.studiesForPatient "PA",
        ∃ r : StudyRecord,
          studyRecordOf oneStudyDb study = Except.ok r ∧ s = r.studyShortName :=
  updateStudiesToList_replaces_study_list ["staleStudyOfOldPatient"] [] oneStudyDb "PA"
    ["20240101_BRAIN"] rfl

/-- C9: on every valid call the direction flag handed to the Threshold
Scalar Volume CLI is exactly `"Above"` when the inversion flag is set and
`"Below"` otherwise, and the numeric threshold is passed through unchanged. -/
theorem process_threshold_direction (scene : List String) (freshCliNodeId : String)
    (iv ov : VolumeNode) (imageThreshold : ℚ) (invert showResult : Bool)
    (r : ProcessResult)
    (h : process scene freshCliNodeId (some iv) (some ov) imageThreshold invert showResult =
      Except.ok r) :
    r.invocations = [cliParamsOf iv ov imageThreshold invert showResult] ∧
      (cliParamsOf iv ov imageThreshold invert showResult).thresholdType =
        (if invert then "Above" else "Below") ∧
      (cliParamsOf iv ov imageThreshold invert showResult).thresholdValue = imageThreshold := by
  simp only [process, Except.ok.injEq] at h
  subst h
  exact ⟨rfl, rfl, rfl⟩

/-- C9 witness: a concrete inverted call with threshold 100. -/
theorem process_threshold_direction_witness :
    ({ invocations := [cliParamsOf { id := "vol1" } { id := "vol2" } 100 true false]
       scene := ([] : List String) } : ProcessResult).invocations =
        [cliParamsOf { id := "vol1" } { id := "vol2" } 100 true false] ∧
      (cliParamsOf { id := "vol1" } { id := "vol2" } 100 true false).thresholdType =
        (if true then "Above" else "Below") ∧
      (cliParamsOf { id := "vol1" } { id := "vol2" } 100 true false).thresholdValue = 100 :=
  process_threshold_direction [] "cliNode1" { id := "vol1" } { id := "vol2" } 100 true false
    { invocations := [cliParamsOf { id := "vol1" } { id := "vol2" } 100 true false]
      scene := [] } rfl

/-- C10: `setup` leaves the study combo box unconnected; every
`onPatientSelected` call adds one more connection from
`currentIndexChanged(int)` to `onStudySelected` and nothing ever disconnects
one, so after `n` patient selections a single study-selection event invokes
`onStudySelected` (and with it the series-table rebuild) `n` times. -/
theorem onPatientSelected_accumulates_connections (n : Nat) :
    studyIndexChangedInvocations (onPatientSelectedConnect^[n] setupConnState) = n := by
  have key : ∀ m : Nat, (onPatientSelectedConnect^[m] setupConnState).studyConnections = m := by
    intro m
    induction m with
    | zero => rfl
    | succ k ih =>
      rw [Function.iterate_succ_apply']
      show (onPatientSelectedConnect^[k] setupConnState).studyConnections + 1 = k + 1
      rw [ih]
  exact key n
